import Mathlib

/-!
Shallow embedding of the generic-mutability crate (fzs111/rust-generic-mutability).

Modeling choices:

- The two uninhabited marker types `Mutable` and `Immutable` (named `Shared` in the
  `genref.rs` iteration) are the only implementors of the sealed `Mutability` trait.
  A sealed trait over a closed two-element set of types is embedded as the inductive
  `Mut` with exactly two constructors; each trait impl becomes one match arm of a
  function on `Mut`.
- A raw pointer `NonNull<T>` and the references `&T` / `&mut T` are all, at runtime,
  addresses designating a location inside some root state. They are embedded as a
  `Place S T`: a lens with a `get` and a `set` component over a root state `S`.
  `NonNull::as_mut` and `NonNull::as_ref` (and `NonNull::from` on a reference) do not
  change the address, so they are the identity on the designated place; the
  shared/unique access discipline is tracked by the `Mut` marker, exactly as the
  static type of the reference tracks it in Rust.
- Closures `FnOnce(&'a mut T, X) -> U` / `FnOnce(&'a T, X) -> U` become functions
  `Place S T → X → U`; the `moved` helper value is passed through unchanged.
- `GenRef<'s, M, T>` is a struct holding one `NonNull<T>`; it becomes a structure
  `GenRef m S T` holding one `Place S T`, with the marker `m` a phantom parameter.
- The fallible `TryFrom<GenRefEnum>` conversion returns `Except IncorrectMutability`.
- Lifetimes have no runtime content and are erased.
-/

/-- Mutability marker: the closed set of the two types implementing the sealed
`Mutability` trait (`src/lib.rs` lines 22-31): `Mutable` and `Immutable`
(the latter is named `Shared` in the `genref.rs` iteration). -/
inductive Mut where
  | Mutable
  | Immutable
deriving DecidableEq, Repr

/-- A place: the location a pointer or reference designates inside a root state `S`,
with the value it holds (`get`) and the effect of storing into it (`set`).
This embeds `NonNull<T>`, `&T` and `&mut T`, which at runtime are all addresses. -/
structure Place (S T : Type) where
  get : S → T
  set : S → T → S

/-- Embedding of `NonNull::as_mut` (`ptr.as_mut()`): reading the address as a unique
reference; the designated place is unchanged. -/
def Place.as_mut {S T : Type} (p : Place S T) : Place S T := p

/-- Embedding of `NonNull::as_ref` (`ptr.as_ref()`): reading the address as a shared
reference; the designated place is unchanged. -/
def Place.as_ref {S T : Type} (p : Place S T) : Place S T := p

/-- Embedding of `NonNull::from(reference)`: a reference already is its address. -/
def Place.nonnull_from {S T : Type} (p : Place S T) : Place S T := p

/-- Embedding of `Mutability::dispatch` (`src/lib.rs` lines 140-155 for `Mutable`,
195-209 for `Immutable`): the `Mutable` impl dereferences the pointer with `as_mut`
and calls `fn_mut`, the `Immutable` impl dereferences with `as_ref` and calls
`fn_immut`; the `moved` value is handed to the called closure. -/
def Mut.dispatch {S T X U : Type} :
    Mut → Place S T → X → (Place S T → X → U) → (Place S T → X → U) → U
  | Mut.Mutable, ptr, moved, fn_mut, _fn_immut => fn_mut ptr.as_mut moved
  | Mut.Immutable, ptr, moved, _fn_mut, fn_immut => fn_immut ptr.as_ref moved

/-- Embedding of `Mutability::map` (`src/lib.rs` lines 158-170 and 212-224):
dispatches to the matching closure, which returns a derived reference, converted
back to a pointer (`.into()`, the identity on the designated place). -/
def Mut.map {S T U X : Type} :
    Mut → Place S T → X → (Place S T → X → Place S U) → (Place S T → X → Place S U) →
    Place S U
  | Mut.Mutable, ptr, moved, fn_mut, _fn_immut => (fn_mut ptr.as_mut moved).nonnull_from
  | Mut.Immutable, ptr, moved, _fn_mut, fn_immut => (fn_immut ptr.as_ref moved).nonnull_from

/-- Embedding of `Mutability::split` (`src/lib.rs` lines 173-187 and 227-241):
dispatches to the matching closure, which returns a pair of derived references,
both converted back to pointers. -/
def Mut.split {S T U V X : Type} :
    Mut → Place S T → X → (Place S T → X → Place S U × Place S V) →
    (Place S T → X → Place S U × Place S V) → Place S U × Place S V
  | Mut.Mutable, ptr, moved, fn_mut, _fn_immut =>
      let (a, b) := fn_mut ptr.as_mut moved
      (a.nonnull_from, b.nonnull_from)
  | Mut.Immutable, ptr, moved, _fn_mut, fn_immut =>
      let (a, b) := fn_immut ptr.as_ref moved
      (a.nonnull_from, b.nonnull_from)

/-- Embedding of `Mutability::is_mutable` (`src/lib.rs` lines 189-192 and 243-246):
`true` for `Mutable`, `false` for `Immutable`. -/
def Mut.is_mutable : Mut → Bool
  | Mut.Mutable => true
  | Mut.Immutable => false

/-- Embedding of the associated constant `Mutability::IS_MUTABLE` of the
`src/mutability.rs` iteration (lines 293 and 314): `true` in the `Mutable` impl,
`false` in the `Immutable` impl. -/
def Mut.IS_MUTABLE : Mut → Bool
  | Mut.Mutable => true
  | Mut.Immutable => false

/-- Embedding of `GenRef<'s, M, T>` (`src/lib.rs` lines 260-264): a safe wrapper
holding one `NonNull<T>` pointer, with the mutability marker a phantom parameter. -/
structure GenRef (m : Mut) (S T : Type) where
  ptr : Place S T

/-- Embedding of `GenRef::dispatch` (`src/lib.rs` lines 313-327): delegates to
`M::dispatch` with `()` as the moved value. -/
def GenRef.dispatch {m : Mut} {S T U : Type} (self : GenRef m S T)
    (fn_mut : Place S T → U) (fn_immut : Place S T → U) : U :=
  Mut.dispatch m self.ptr () (fun t _ => fn_mut t) (fun t _ => fn_immut t)

/-- Embedding of `GenRef::dispatch_with_move` (`src/lib.rs` lines 335-344). -/
def GenRef.dispatch_with_move {m : Mut} {S T U X : Type} (self : GenRef m S T) (moved : X)
    (fn_mut : Place S T → X → U) (fn_immut : Place S T → X → U) : U :=
  Mut.dispatch m self.ptr moved fn_mut fn_immut

/-- Embedding of `GenRef::map_with_move` (`src/lib.rs` lines 371-383): wraps the
pointer returned by `M::map` in a new `GenRef`. -/
def GenRef.map_with_move {m : Mut} {S T U X : Type} (self : GenRef m S T) (moved : X)
    (fn_mut : Place S T → X → Place S U) (fn_immut : Place S T → X → Place S U) :
    GenRef m S U :=
  GenRef.mk (Mut.map m self.ptr moved fn_mut fn_immut)

/-- Embedding of `GenRef::map` (`src/lib.rs` lines 352-363): `map_with_move`
with `()` as the moved value. -/
def GenRef.map {m : Mut} {S T U : Type} (self : GenRef m S T)
    (fn_mut : Place S T → Place S U) (fn_immut : Place S T → Place S U) : GenRef m S U :=
  self.map_with_move () (fun t _ => fn_mut t) (fun t _ => fn_immut t)

/-- Embedding of `GenRef::split_with_move` (`src/lib.rs` lines 468-482): wraps both
pointers returned by `M::split` in new `GenRef`s. -/
def GenRef.split_with_move {m : Mut} {S T U V X : Type} (self : GenRef m S T) (moved : X)
    (fn_mut : Place S T → X → Place S U × Place S V)
    (fn_immut : Place S T → X → Place S U × Place S V) :
    GenRef m S U × GenRef m S V :=
  let (a, b) := Mut.split m self.ptr moved fn_mut fn_immut
  (GenRef.mk a, GenRef.mk b)

/-- Embedding of `GenRef::as_immut` (`src/lib.rs` lines 400-407): the shared
reference `self.ptr.as_ref()`. -/
def GenRef.as_immut {m : Mut} {S T : Type} (self : GenRef m S T) : Place S T :=
  self.ptr.as_ref

/-- Embedding of `GenRef::into_mut` (`src/lib.rs` lines 520-526, only on the
`Mutable` marker): the unique reference `self.ptr.as_mut()`. -/
def GenRef.into_mut {S T : Type} (self : GenRef Mut.Mutable S T) : Place S T :=
  self.ptr.as_mut

/-- Embedding of `GenRef::into_immut` (`src/lib.rs` lines 492-498, only on the
`Immutable` marker): the shared reference `self.ptr.as_ref()`. -/
def GenRef.into_immut {S T : Type} (self : GenRef Mut.Immutable S T) : Place S T :=
  self.ptr.as_ref

/-- Embedding of `impl From<&'a mut T> for GenRef<'a, Mutable, T>`
(`src/lib.rs` lines 537-551): `Self::new(NonNull::from(reference))`. -/
def GenRef.from_mut {S T : Type} (reference : Place S T) : GenRef Mut.Mutable S T :=
  GenRef.mk reference.nonnull_from

/-- Embedding of `impl From<&'a T> for GenRef<'a, Immutable, T>`
(`src/lib.rs` lines 553-567): `Self::new(NonNull::from(reference))`. -/
def GenRef.from_shared {S T : Type} (reference : Place S T) : GenRef Mut.Immutable S T :=
  GenRef.mk reference.nonnull_from

/-- Claim C1: dispatch on the `Mutable` marker dereferences the pointer with `as_mut`
and returns exactly the result of `fn_mut` applied to that reference and the moved
value; dispatch on the `Immutable` marker dereferences with `as_ref` and returns
exactly the result of `fn_immut`; in each case the result is independent of the other
closure, which is never called. -/
theorem dispatch_calls_exactly_matching_closure (S T X U : Type) (ptr : Place S T)
    (moved : X) (fn_mut fn_mut2 fn_immut fn_immut2 : Place S T → X → U) :
    Mut.dispatch Mut.Mutable ptr moved fn_mut fn_immut = fn_mut ptr.as_mut moved ∧
    Mut.dispatch Mut.Immutable ptr moved fn_mut fn_immut = fn_immut ptr.as_ref moved ∧
    Mut.dispatch Mut.Mutable ptr moved fn_mut fn_immut =
      Mut.dispatch Mut.Mutable ptr moved fn_mut fn_immut2 ∧
    Mut.dispatch Mut.Immutable ptr moved fn_mut fn_immut =
      Mut.dispatch Mut.Immutable ptr moved fn_mut2 fn_immut :=
  ⟨rfl, rfl, rfl, rfl⟩

/-- Claim C2: `is_mutable()` returns `true` for the `Mutable` marker and `false` for
the `Immutable` marker; the `IS_MUTABLE` constant of the alternate iteration agrees
with it on every marker; and the sealed trait has exactly these two implementors. -/
theorem is_mutable_agrees_with_marker :
    Mut.is_mutable Mut.Mutable = true ∧
    Mut.is_mutable Mut.Immutable = false ∧
    Mut.IS_MUTABLE Mut.Mutable = true ∧
    Mut.IS_MUTABLE Mut.Immutable = false ∧
    (∀ m : Mut, Mut.IS_MUTABLE m = Mut.is_mutable m) ∧
    (∀ m : Mut, m = Mut.Mutable ∨ m = Mut.Immutable) :=
  ⟨rfl, rfl, rfl, rfl,
    fun m => by cases m <;> rfl,
    fun m => by cases m <;> simp⟩

/-- Embedding of `GenRefEnum<'s, T>` (`src/lib.rs` lines 272-275): a runtime-tagged
union holding either a unique or a shared reference. -/
inductive GenRefEnum (S T : Type) where
  | Mutable (r : Place S T)
  | Immutable (r : Place S T)

/-- Embedding of `impl From<GenRef<'a, M, T>> for GenRefEnum<'a, T>`
(`src/lib.rs` lines 649-656): one dispatch, wrapping the reference in the matching
variant. -/
def GenRefEnum.from_genref {m : Mut} {S T : Type} (genref : GenRef m S T) :
    GenRefEnum S T :=
  genref.dispatch (fun r => GenRefEnum.Mutable r) (fun r => GenRefEnum.Immutable r)

/-- Embedding of the error type `IncorrectMutability` (`src/lib.rs` lines 676-678):
it records whether the requested target mutability was mutable. -/
structure IncorrectMutability where
  target_mutable : Bool

/-- Embedding of `impl TryFrom<GenRefEnum<'a, T>> for GenRef<'a, M, T>`
(`src/lib.rs` lines 726-751; the `src/genref_enum.rs` iteration, lines 82-107, is
identical except that it consults `M::IS_MUTABLE` instead of `M::is_mutable()`,
which agree on both markers): succeeds exactly when the runtime tag matches the
static answer of the marker, otherwise reports `IncorrectMutability`. -/
def GenRef.try_from {S T : Type} (m : Mut) (genref_enum : GenRefEnum S T) :
    Except IncorrectMutability (GenRef m S T) :=
  match m.is_mutable, genref_enum with
  | true, GenRefEnum.Mutable r => Except.ok (GenRef.mk r.nonnull_from)
  | false, GenRefEnum.Immutable r => Except.ok (GenRef.mk r.nonnull_from)
  | target_mutable, _ => Except.error (IncorrectMutability.mk target_mutable)

/-- Runtime tag of a `GenRefEnum` value: `true` for the `Mutable` variant. -/
def GenRefEnum.tag_mutable {S T : Type} : GenRefEnum S T → Bool
  | GenRefEnum.Mutable _ => true
  | GenRefEnum.Immutable _ => false

/-- Reference payload carried by a `GenRefEnum` value. -/
def GenRefEnum.place {S T : Type} : GenRefEnum S T → Place S T
  | GenRefEnum.Mutable r => r
  | GenRefEnum.Immutable r => r

/-- Claim C3: the `TryFrom` downcast succeeds exactly when the runtime tag equals the
marker's static `is_mutable()` answer, and on every mismatch it returns an
`IncorrectMutability` error whose field records the expected (target) mutability,
the found one being its opposite; in particular a `Mutable`-tagged enum never
converts to an `Immutable`-marker `GenRef`. Every other modeled operation is a total
function, so this downcast is the only fallible operation. -/
theorem try_from_succeeds_iff_tag_matches (S T : Type) (m : Mut) (e : GenRefEnum S T) :
    (GenRef.try_from m e =
      if GenRefEnum.tag_mutable e = Mut.is_mutable m
      then Except.ok (GenRef.mk (GenRefEnum.place e))
      else Except.error (IncorrectMutability.mk (Mut.is_mutable m))) ∧
    (∀ r : Place S T,
      GenRef.try_from (S := S) (T := T) Mut.Immutable (GenRefEnum.Mutable r) =
        Except.error (IncorrectMutability.mk false)) :=
  ⟨by cases m <;> cases e <;> rfl, fun r => rfl⟩

/-- Claim C4: converting a `GenRef` to the dynamic `GenRefEnum` view is total and
wraps the reference in the variant matching the marker; converting back with the
same marker always succeeds and yields the very same reference (same place, hence
same location and value); converting with the other marker always fails with the
typed mismatch error. -/
theorem genref_enum_roundtrip (S T : Type) :
    (∀ g : GenRef Mut.Mutable S T, GenRefEnum.from_genref g = GenRefEnum.Mutable g.ptr) ∧
    (∀ g : GenRef Mut.Immutable S T,
      GenRefEnum.from_genref g = GenRefEnum.Immutable g.ptr) ∧
    (∀ (m : Mut) (g : GenRef m S T),
      GenRef.try_from m (GenRefEnum.from_genref g) = Except.ok g) ∧
    (∀ g : GenRef Mut.Mutable S T,
      GenRef.try_from Mut.Immutable (GenRefEnum.from_genref g) =
        Except.error (IncorrectMutability.mk false)) ∧
    (∀ g : GenRef Mut.Immutable S T,
      GenRef.try_from Mut.Mutable (GenRefEnum.from_genref g) =
        Except.error (IncorrectMutability.mk true)) :=
  ⟨fun g => rfl,
    fun g => rfl,
    fun m g => by cases m <;> rfl,
    fun g => rfl,
    fun g => rfl⟩

/-- Embedding of `impl Debug for IncorrectMutability` (`src/lib.rs` lines 684-691):
the rendered string, chosen by `target_mutable`. -/
def IncorrectMutability.debug_fmt (e : IncorrectMutability) : String :=
  match e.target_mutable with
  | true => "IncorrectMutability(immut -> mut)"
  | false => "IncorrectMutability(mut -> immut)"

/-- Name substituted for the `target` placeholder of the `Display` impl
(`src/lib.rs` lines 701-704). -/
def IncorrectMutability.display_target (e : IncorrectMutability) : String :=
  match e.target_mutable with
  | true => "Mutable"
  | false => "Immutable"

/-- Name substituted for the `source` placeholder of the `Display` impl
(`src/lib.rs` lines 705-708): computed from the negation of `target_mutable`. -/
def IncorrectMutability.display_source (e : IncorrectMutability) : String :=
  match !e.target_mutable with
  | true => "Mutable"
  | false => "Immutable"

/-- Embedding of `impl Display for IncorrectMutability` (`src/lib.rs` lines 693-711):
the format string with the `target` and `source` substitutions applied. -/
def IncorrectMutability.display_fmt (e : IncorrectMutability) : String :=
  "Failed to convert GenRefEnum<\x27_, T> into GenRef<\x27_, " ++ e.display_target ++
    ", T>:\nMutability of target differs from source\n\nExpected enum variant GenRefEnum::"
    ++ e.display_target ++ "\n   Found enum variant GenRefEnum::" ++ e.display_source

/-- Claim C10: the `Debug` rendering is exactly the two fixed strings chosen by the
target mutability, and the `Display` rendering always names the found variant as the
opposite of the target variant, so the two reported mutabilities are never equal. -/
theorem incorrect_mutability_rendering :
    IncorrectMutability.debug_fmt (IncorrectMutability.mk true) =
      "IncorrectMutability(immut -> mut)" ∧
    IncorrectMutability.debug_fmt (IncorrectMutability.mk false) =
      "IncorrectMutability(mut -> immut)" ∧
    (∀ e : IncorrectMutability,
      e.display_source = IncorrectMutability.display_target
        (IncorrectMutability.mk (!e.target_mutable)) ∧
      e.display_source ≠ e.display_target) ∧
    IncorrectMutability.display_fmt (IncorrectMutability.mk true) =
      "Failed to convert GenRefEnum<\x27_, T> into GenRef<\x27_, Mutable, T>:\nMutability of target differs from source\n\nExpected enum variant GenRefEnum::Mutable\n   Found enum variant GenRefEnum::Immutable" ∧
    IncorrectMutability.display_fmt (IncorrectMutability.mk false) =
      "Failed to convert GenRefEnum<\x27_, T> into GenRef<\x27_, Immutable, T>:\nMutability of target differs from source\n\nExpected enum variant GenRefEnum::Immutable\n   Found enum variant GenRefEnum::Mutable" :=
  ⟨rfl, rfl,
    fun e => by
      obtain ⟨b⟩ := e
      cases b <;> exact ⟨rfl, by decide⟩,
    rfl, rfl⟩

/-- A place behaves like a reference when reading back what was just stored through
it yields the stored value, which native references guarantee. -/
def Place.Lawful {S T : Type} (p : Place S T) : Prop :=
  ∀ (s : S) (v : T), p.get (p.set s v) = v

/-- Two places are disjoint when storing through either one leaves the value read
through the other unchanged, as for references to two disjoint fields. -/
def Place.DisjointFrom {S U V : Type} (a : Place S U) (b : Place S V) : Prop :=
  (∀ (s : S) (v : V), a.get (b.set s v) = a.get s) ∧
  (∀ (s : S) (u : U), b.get (a.set s u) = b.get s)

/-- Identity place: the location a native reference to the whole root designates. -/
def idPlace (A : Type) : Place A A :=
  Place.mk (fun s => s) (fun _ v => v)

/-- Claim C5: for every native mutable reference `r`, building a `GenRef` via the
`From` implementation (total, `Mutable` marker) and unwrapping with `into_mut` yields
back the very same place, so a write through the result is observed by a read
through the original location and vice versa. -/
theorem from_mut_into_mut_same_place (S T : Type) (r : Place S T) :
    GenRef.into_mut (GenRef.from_mut r) = r ∧
    (Place.Lawful r →
      ∀ (s : S) (v : T),
        r.get ((GenRef.into_mut (GenRef.from_mut r)).set s v) = v ∧
        (GenRef.into_mut (GenRef.from_mut r)).get (r.set s v) = v) :=
  ⟨rfl, fun h s v => ⟨h s v, h s v⟩⟩

/-- Witness for claim C5 at the identity place over `Int`, writing `42` at state
`5`. -/
theorem from_mut_into_mut_same_place_witness :
    (idPlace Int).get ((GenRef.into_mut (GenRef.from_mut (idPlace Int))).set 5 42) = 42 :=
  ((from_mut_into_mut_same_place Int Int (idPlace Int)).2 (fun _ _ => rfl) 5 42).1

/-- Embedding of `impl Deref for GenRef` of the `src/genref.rs` iteration
(lines 455-463): `GenRef::as_ptr(self)` followed by `ptr.as_ref()`. -/
def GenRef.deref {m : Mut} {S T : Type} (self : GenRef m S T) : Place S T :=
  self.ptr.as_ref

/-- Claim C6: for both markers, reading through a `GenRef` built from a native
reference, via `as_immut` or via the `Deref` implementation, yields the value read
through the native reference itself, at every root state. -/
theorem read_transparency (S T : Type) (r : Place S T) (s : S) :
    (GenRef.as_immut (GenRef.from_mut r)).get s = r.get s ∧
    (GenRef.as_immut (GenRef.from_shared r)).get s = r.get s ∧
    (GenRef.deref (GenRef.from_mut r)).get s = r.get s ∧
    (GenRef.deref (GenRef.from_shared r)).get s = r.get s :=
  ⟨rfl, rfl, rfl, rfl⟩

/-- Proof token of the `src/genref.rs` iteration: a value of `IsMutable m` certifies
that the marker is `Mutable`. -/
def IsMutable (m : Mut) : Prop := m = Mut.Mutable

/-- Proof token of the `src/genref.rs` iteration: a value of `IsShared m` certifies
that the marker is `Shared` (the shared marker, named `Immutable` here). -/
def IsShared (m : Mut) : Prop := m = Mut.Immutable

/-- Embedding of `MutabilityEnum<M>`: the branching enum whose variants carry the
corresponding proof tokens. -/
inductive MutabilityEnum (m : Mut) where
  | Mutable (proof : IsMutable m)
  | Shared (proof : IsShared m)

/-- Embedding of `Mutability::mutability()` of the `src/genref.rs` iteration: the
`Mutable` impl yields the `Mutable` variant, the `Shared` impl the `Shared` one. -/
def Mut.mutability : (m : Mut) → MutabilityEnum m
  | Mut.Mutable => MutabilityEnum.Mutable rfl
  | Mut.Immutable => MutabilityEnum.Shared rfl

/-- Embedding of `GenRef::gen_into_mut` (`src/genref.rs` lines 245-252): with a
mutability proof, the pointer is read as a unique reference. -/
def Genref.gen_into_mut {m : Mut} {S T : Type} (genref : GenRef m S T)
    (_proof : IsMutable m) : Place S T :=
  genref.ptr.as_mut

/-- Embedding of `GenRef::gen_from_mut` (`src/genref.rs` lines 260-263), via
`gen_from_mut_downgrading` (lines 228-234). -/
def Genref.gen_from_mut {m : Mut} {S T : Type} (reference : Place S T)
    (_proof : IsMutable m) : GenRef m S T :=
  GenRef.mk reference.nonnull_from

/-- Embedding of `GenRef::gen_into_shared` (`src/genref.rs` lines 266-269), via
`gen_into_shared_downgrading` (lines 237-242). -/
def Genref.gen_into_shared {m : Mut} {S T : Type} (genref : GenRef m S T)
    (_proof : IsShared m) : Place S T :=
  genref.ptr.as_ref

/-- Embedding of `GenRef::gen_from_shared` (`src/genref.rs` lines 276-282). -/
def Genref.gen_from_shared {m : Mut} {S T : Type} (reference : Place S T)
    (_proof : IsShared m) : GenRef m S T :=
  GenRef.mk reference.nonnull_from

/-- Embedding of the associated function `GenRef::map` of the `src/genref.rs`
iteration (lines 293-308): note the argument order `(f_shared, f_mut)`; it branches
on `M::mutability()` and uses the proof-token conversions. -/
def Genref.map {m : Mut} {S T U : Type} (genref : GenRef m S T)
    (f_shared : Place S T → Place S U) (f_mut : Place S T → Place S U) :
    GenRef m S U :=
  match Mut.mutability m with
  | MutabilityEnum.Mutable proof =>
      Genref.gen_from_mut (f_mut (Genref.gen_into_mut genref proof)) proof
  | MutabilityEnum.Shared proof =>
      Genref.gen_from_shared (f_shared (Genref.gen_into_shared genref proof)) proof

/-- Embedding of the trait method `GenRefMethods::map`
(`src/genref/genref_methods.rs` lines 85-91, identically `src/genref.rs` lines
392-398): it takes its closures in the order `(f_mut, f_shared)` and delegates to
`GenRef::map(self, f_shared, f_mut)`. -/
def GenRefMethods.map {m : Mut} {S T U : Type} (self : GenRef m S T)
    (f_mut : Place S T → Place S U) (f_shared : Place S T → Place S U) :
    GenRef m S U :=
  Genref.map self f_shared f_mut

/-- Claim C9: the method-syntax `GenRefMethods::map`, with closure order
`(f_mut, f_shared)`, returns exactly the `GenRef` produced by the associated
function `GenRef::map` called with the order `(f_shared, f_mut)`; consequently both
entry points run `f_mut` under the `Mutable` marker and `f_shared` under the
`Shared` marker. -/
theorem genref_methods_map_delegates_swapped (S T U : Type) :
    (∀ (m : Mut) (g : GenRef m S T)
      (f_mut f_shared : Place S T → Place S U),
      GenRefMethods.map g f_mut f_shared = Genref.map g f_shared f_mut) ∧
    (∀ (g : GenRef Mut.Mutable S T) (f_mut f_shared : Place S T → Place S U),
      GenRefMethods.map g f_mut f_shared = GenRef.mk (f_mut g.ptr) ∧
      Genref.map g f_shared f_mut = GenRef.mk (f_mut g.ptr)) ∧
    (∀ (g : GenRef Mut.Immutable S T) (f_mut f_shared : Place S T → Place S U),
      GenRefMethods.map g f_mut f_shared = GenRef.mk (f_shared g.ptr) ∧
      Genref.map g f_shared f_mut = GenRef.mk (f_shared g.ptr)) :=
  ⟨fun _ _ _ _ => rfl,
    fun _ _ _ => ⟨rfl, rfl⟩,
    fun _ _ _ => ⟨rfl, rfl⟩⟩

/-- Claim C7: a two-field split of a `Mutable`-marker `GenRef` routes through the
mutable closure, and whenever the two returned references are lawful and designate
disjoint fields, writing through each half leaves each half reading back exactly its
own written value: mutation through one half is never observable through the
other. -/
theorem split_disjointness (S T U V X : Type) (g : GenRef Mut.Mutable S T) (moved : X)
    (fn_mut fn_immut : Place S T → X → Place S U × Place S V) :
    GenRef.split_with_move g moved fn_mut fn_immut =
      (GenRef.mk (fn_mut g.ptr moved).1, GenRef.mk (fn_mut g.ptr moved).2) ∧
    (Place.Lawful (fn_mut g.ptr moved).1 →
     Place.Lawful (fn_mut g.ptr moved).2 →
     Place.DisjointFrom (fn_mut g.ptr moved).1 (fn_mut g.ptr moved).2 →
      ∀ (s : S) (u : U) (v : V),
        (fn_mut g.ptr moved).1.get
          ((fn_mut g.ptr moved).2.set ((fn_mut g.ptr moved).1.set s u) v) = u ∧
        (fn_mut g.ptr moved).2.get
          ((fn_mut g.ptr moved).2.set ((fn_mut g.ptr moved).1.set s u) v) = v) :=
  ⟨rfl,
    fun hu hv hd s u v =>
      ⟨(hd.1 ((fn_mut g.ptr moved).1.set s u) v).trans (hu s u), hv _ v⟩⟩

/-- First-field place of a two-field root, as the closure `|p| &mut p.0` yields. -/
def fstPlace : Place (Int × Int) Int :=
  Place.mk (fun s => s.1) (fun s v => (v, s.2))

/-- Second-field place of a two-field root, as the closure `|p| &mut p.1` yields. -/
def sndPlace : Place (Int × Int) Int :=
  Place.mk (fun s => s.2) (fun s v => (s.1, v))

/-- Witness for claim C7: splitting a two-field structure into its fields, writing
`10` through the first half and `20` through the second starting from `(1, 2)`,
each half reads back its own value. -/
theorem split_disjointness_witness :
    fstPlace.get (sndPlace.set (fstPlace.set ((1 : Int), (2 : Int)) 10) 20) = 10 ∧
    sndPlace.get (sndPlace.set (fstPlace.set ((1 : Int), (2 : Int)) 10) 20) = 20 :=
  (split_disjointness (Int × Int) (Int × Int) Int Int Unit
      (GenRef.mk (idPlace (Int × Int))) ()
      (fun _ _ => (fstPlace, sndPlace)) (fun _ _ => (fstPlace, sndPlace))).2
    (fun _ _ => rfl) (fun _ _ => rfl) ⟨fun _ _ => rfl, fun _ _ => rfl⟩ (1, 2) 10 20

/-- Place of element `i` of a list reached through a reference `p`, as the intended
closure `|t, i| &mut t[i]` of the generic index function yields: reading takes
element `i` of the referenced list, storing replaces element `i` in place. -/
def listElemPlace {S : Type} (p : Place S (List Int)) (i : Nat) : Place S Int :=
  Place.mk (fun s => (p.get s).getD i 0) (fun s v => p.set s ((p.get s).set i v))

/-- Generic index function of the scenario with the closure parameters in the order
`map_with_move` actually supplies them, reference first and moved index second
(the test `index_genref` in `src/tests/test.rs` lines 20-25 writes them the other
way round). -/
def index_genref_intended {S : Type} (g : GenRef Mut.Mutable S (List Int)) (i : Nat) :
    GenRef Mut.Mutable S Int :=
  GenRef.map_with_move g i (fun t i => listElemPlace t i) (fun t i => listElemPlace t i)

/-- Claim C8 (intended behavior): `map_with_move` on the `Mutable` marker passes the
dereferenced pointer as the FIRST closure argument and the moved value as the
SECOND, so a generic index function must write its closures as `|t, i| &mut t[i]`;
with that order, indexing the length-4 collection `[1, 2, 3, 4]` at index 2 reads
`3`, and assigning `13` through the returned reference updates exactly element 2 of
the original collection. The test `index_genref` in `src/tests/test.rs` instead
writes `|i, t| &mut t[i]`, binding the collection reference to `i` and the moved
index to `t`, which contradicts this signature. -/
theorem map_with_move_scenario_intended :
    (∀ (S T U X : Type) (g : GenRef Mut.Mutable S T) (moved : X)
      (fn_mut fn_immut : Place S T → X → Place S U),
      GenRef.map_with_move g moved fn_mut fn_immut = GenRef.mk (fn_mut g.ptr moved)) ∧
    (index_genref_intended (GenRef.mk (idPlace (List Int))) 2).ptr.get [1, 2, 3, 4]
      = 3 ∧
    (index_genref_intended (GenRef.mk (idPlace (List Int))) 2).ptr.set [1, 2, 3, 4] 13
      = [1, 2, 13, 4] :=
  ⟨fun _ _ _ _ _ _ _ _ => rfl, rfl, rfl⟩
